import Mathlib

/-!
Verification development for the 2D differentiable resampler
(`resampler_ops.h` / `resampler_ops.cc`).

The C++ kernels are shallowly embedded over `ℚ`: the scalar type `T`
(half/float/double) is modelled by exact rational arithmetic, flat tensor
buffers by functions `ℕ → ℚ` indexed like the C pointers, and the C++
`for`-loops with in-place accumulation by left folds over explicit index
lists.  Fallible operator construction and `Compute` entry points return
`Except OpError _`.
-/

/-- Error classes raised by `OP_REQUIRES` in the operator entry points. -/
inductive OpError where
  | invalidArgument
  | unimplemented
deriving DecidableEq

/-- Enum `SamplingKernelType` from the external sampling-kernel catalog header,
with the `SamplingKernelTypeEnd` sentinel denoting an unrecognized name. -/
inductive SamplingKernelType where
  | Lanczos1Kernel
  | Lanczos3Kernel
  | Lanczos5Kernel
  | GaussianKernel
  | BoxKernel
  | TriangleKernel
  | KeysCubicKernel
  | MitchellCubicKernel
  | SamplingKernelTypeEnd
deriving DecidableEq

/-- ASCII lower-casing of one character, as `absl::AsciiStrToLower` does it. -/
def asciiToLower (c : Char) : Char :=
  if 'A' ≤ c ∧ c ≤ 'Z' then Char.ofNat (c.toNat + 32) else c

/-- ASCII lower-casing of a string (`absl::AsciiStrToLower`). -/
def asciiStrToLower (s : String) : String :=
  String.mk (s.data.map asciiToLower)

/-- Embedding of `SamplingKernelTypeFromString` (resampler_ops.cc lines 34-45):
lowercase the argument and compare against the eight recognized names,
returning the `SamplingKernelTypeEnd` sentinel for anything else. -/
def SamplingKernelTypeFromString (str : String) : SamplingKernelType :=
  let lower_case := asciiStrToLower str
  if lower_case = "lanczos1" then .Lanczos1Kernel
  else if lower_case = "lanczos3" then .Lanczos3Kernel
  else if lower_case = "lanczos5" then .Lanczos5Kernel
  else if lower_case = "gaussian" then .GaussianKernel
  else if lower_case = "box" then .BoxKernel
  else if lower_case = "triangle" then .TriangleKernel
  else if lower_case = "keyscubic" then .KeysCubicKernel
  else if lower_case = "mitchellcubic" then .MitchellCubicKernel
  else .SamplingKernelTypeEnd

/-- Kernel descriptor: radius plus 1D weight function, the interface the
forward resampler consumes (`kernel.Radius()` and `kernel(delta)`). -/
structure SamplingKernel where
  Radius : ℚ
  w : ℚ → ℚ

/-- Modelled from the spec: `CreateKeysCubicKernel` lives in the external
sampling-kernel catalog (`tensorflow/core/kernels/image/sampling_kernels.h`,
an external collaborator, not part of src/).  It is the Keys cubic
convolution kernel of radius 2: for `a = |t|`,
`w(t) = ((-1/2)a + 5/2)a - 4)a + 2` on `1 ≤ a < 2`,
`w(t) = ((3/2)a - 5/2)a·a + 1` on `a < 1`, and `0` for `a ≥ 2`. -/
def CreateKeysCubicKernel : SamplingKernel where
  Radius := 2
  w := fun t =>
    let a := |t|
    if 2 ≤ a then 0
    else if 1 ≤ a then ((-1/2 * a + 5/2) * a - 4) * a + 2
    else ((3/2 * a - 5/2) * a) * a + 1

/-- Modelled from the spec: the triangle (tent) kernel of the catalog
(`CreateTriangleKernel` in the same external header), radius 1 with
`w(t) = 1 - |t|` for `|t| < 1` and `0` otherwise. -/
def CreateTriangleKernel : SamplingKernel where
  Radius := 1
  w := fun t => let a := |t|; if a < 1 then 1 - a else 0

/-- List of the integers `lo, lo+1, ..., hi`, the index sequence of a C++
`for (int i = lo; i <= hi; ++i)` loop. -/
def intRange (lo hi : ℤ) : List ℤ :=
  (List.range (hi + 1 - lo).toNat).map (fun k : ℕ => lo + (k : ℤ))

/-- Arguments captured by `Resampler2DFunctor<CPUDevice, T>::operator()`:
sizes and the flat `data` / `warp` buffers. -/
structure ResampleArgs where
  batch_size : ℕ
  data_height : ℕ
  data_width : ℕ
  data_channels : ℕ
  num_sampling_points : ℕ
  data : ℕ → ℚ
  warp : ℕ → ℚ

/-- Stride `warp_batch_stride = num_sampling_points * 2`. -/
def ResampleArgs.warp_batch_stride (a : ResampleArgs) : ℕ :=
  a.num_sampling_points * 2

/-- Stride `data_batch_stride = data_height * data_width * data_channels`. -/
def ResampleArgs.data_batch_stride (a : ResampleArgs) : ℕ :=
  a.data_height * a.data_width * a.data_channels

/-- Stride `output_batch_stride = num_sampling_points * data_channels`. -/
def ResampleArgs.output_batch_stride (a : ResampleArgs) : ℕ :=
  a.num_sampling_points * a.data_channels

/-- Warp x coordinate `warp[batch_id * warp_batch_stride + sample_id * 2]`. -/
def ResampleArgs.warpX (a : ResampleArgs) (batch_id sample_id : ℕ) : ℚ :=
  a.warp (batch_id * a.warp_batch_stride + sample_id * 2)

/-- Warp y coordinate `warp[batch_id * warp_batch_stride + sample_id * 2 + 1]`. -/
def ResampleArgs.warpY (a : ResampleArgs) (batch_id sample_id : ℕ) : ℚ :=
  a.warp (batch_id * a.warp_batch_stride + sample_id * 2 + 1)

/-- Lambda `get_data_point` (lines 90-97): the pixel at `(x, y)` of channel
`chan` in batch entry `batch_id` when `x >= 0 && y >= 0 && x <= data_width - 1
&& y <= data_height - 1`, else zero (implicit padding). -/
def ResampleArgs.get_data_point (a : ResampleArgs) (batch_id : ℕ) (x y : ℤ)
    (chan : ℕ) : ℚ :=
  if 0 ≤ x ∧ 0 ≤ y ∧ x ≤ (a.data_width : ℤ) - 1 ∧ y ≤ (a.data_height : ℤ) - 1 then
    a.data (batch_id * a.data_batch_stride +
      a.data_channels * (y.toNat * a.data_width + x.toNat) + chan)
  else 0

/-- Validity window of the per-sample branch (lines 109-111):
`x > -1 && y > -1 && x < data_width && y < data_height`. -/
def inWindow (x y : ℚ) (data_width data_height : ℕ) : Prop :=
  -1 < x ∧ -1 < y ∧ x < (data_width : ℚ) ∧ y < (data_height : ℚ)

instance (x y : ℚ) (w h : ℕ) : Decidable (inWindow x y w h) := by
  unfold inWindow; infer_instance

/-- Accumulation loops of lines 119-129: starting from `res = 0`, for `inx`
and `iny` ranging over `[-span_size, span_size]`, add
`get_data_point(cx, cy, chan) * (kernel(dx) * kernel(dy))` where
`cx = fx + inx`, `cy = fy + iny`, `dx = cx - x`, `dy = cy - y`. -/
def resampleChannelLoop (kernel : SamplingKernel) (gp : ℤ → ℤ → ℚ) (x y : ℚ) :
    ℚ :=
  let fx : ℤ := ⌊x⌋
  let fy : ℤ := ⌊y⌋
  let span_size : ℤ := ⌈kernel.Radius⌉
  (intRange (-span_size) span_size).foldl
    (fun res inx =>
      (intRange (-span_size) span_size).foldl
        (fun res iny =>
          res + gp (fx + inx) (fy + iny) *
            (kernel.w ((fx + inx : ℤ) - x) * kernel.w ((fy + iny : ℤ) - y)))
        res)
    0

/-- Value stored by `set_output` for one `(batch_id, sample_id, chan)` triple:
the interpolation result inside the validity window (lines 112-131), exactly
zero outside it (lines 133-136).  `kernel` is the kernel object in scope in
`resample_batches`. -/
def sample_output (a : ResampleArgs) (kernel : SamplingKernel)
    (batch_id sample_id chan : ℕ) : ℚ :=
  let x := a.warpX batch_id sample_id
  let y := a.warpY batch_id sample_id
  if inWindow x y a.data_width a.data_height then
    resampleChannelLoop kernel
      (fun cx cy => a.get_data_point batch_id cx cy chan) x y
  else 0

/-- Post-state of the output buffer after `resample_batches` runs over every
batch entry with interpolation kernel `kernel`: each flat index
`batch_id * output_batch_stride + sample_id * data_channels + chan` (with all
three coordinates in range) is overwritten with `sample_output`; every other
index keeps the buffer's previous contents. -/
def resampleAllWith (a : ResampleArgs) (kernel : SamplingKernel)
    (output : ℕ → ℚ) : ℕ → ℚ :=
  fun i =>
    if 0 < a.data_channels ∧ 0 < a.num_sampling_points ∧
        i < a.batch_size * a.output_batch_stride then
      sample_output a kernel (i / a.output_batch_stride)
        (i % a.output_batch_stride / a.data_channels) (i % a.data_channels)
    else output i

/-- Embedding of `Resampler2DFunctor<CPUDevice, T>::operator()` (lines
61-152).  Line 76 builds the interpolation kernel as
`CreateKeysCubicKernel()` unconditionally, so the `kernel_type` argument is
never consulted. -/
def Resampler2DFunctor (a : ResampleArgs)
    (kernel_type : SamplingKernelType) (output : ℕ → ℚ) : ℕ → ℚ :=
  resampleAllWith a CreateKeysCubicKernel output

/-- Modelled from the spec: the forward functor as §4.1/§4.2 require it —
identical per-sample computation, but driven by the kernel descriptor
resolved from the operator's `kernel_type` instead of a hardcoded Keys cubic
kernel.  (The descriptor itself is passed in, standing for the catalog's
resolution of the recognized kernel id.) -/
def Resampler2DFunctorHonoringKernel (a : ResampleArgs)
    (kernel : SamplingKernel) (output : ℕ → ℚ) : ℕ → ℚ :=
  resampleAllWith a kernel output

example : SamplingKernelTypeFromString "KeysCubic" = .KeysCubicKernel := by decide
example : SamplingKernelTypeFromString "bogus" = .SamplingKernelTypeEnd := by decide
example : intRange (-2) 2 = [-2, -1, 0, 1, 2] := by decide

/-! ## Backward functor (`ResamplerGrad2DFunctor<CPUDevice, T>::operator()`)

The gradient functor takes the same sizes and `data`/`warp` buffers as the
forward one (`ResampleArgs`), plus the upstream `grad_output` buffer; it
accumulates into the two gradient buffers, modelled as a `GradState`. -/

/-- State of the two gradient buffers the backward pass scatter-adds into. -/
structure GradState where
  grad_data : ℕ → ℚ
  grad_warp : ℕ → ℚ

/-- Buffer update `f[i] += value`, the primitive behind both `update_grad_data`
and `update_grad_warp`. -/
def bumpAt (f : ℕ → ℚ) (i : ℕ) (value : ℚ) : ℕ → ℚ :=
  fun j => if j = i then f j + value else f j

/-- Lambda `update_grad_data` (lines 283-291): scatter-add `value` into
`grad_data` at pixel `(x, y)`, channel `chan`, skipped when the pixel is
outside `[0, data_width) × [0, data_height)`. -/
def update_grad_data (a : ResampleArgs) (batch_id : ℕ) (x y : ℤ) (chan : ℕ)
    (value : ℚ) (grad_data : ℕ → ℚ) : ℕ → ℚ :=
  if 0 ≤ x ∧ 0 ≤ y ∧ x ≤ (a.data_width : ℤ) - 1 ∧ y ≤ (a.data_height : ℤ) - 1 then
    bumpAt grad_data
      (batch_id * a.data_batch_stride +
        a.data_channels * (y.toNat * a.data_width + x.toNat) + chan)
      value
  else grad_data

/-- Lambda `update_grad_warp` (lines 293-297): accumulate `value` into
`grad_warp[batch_id * warp_batch_stride + sample_id * 2 + channel]`. -/
def update_grad_warp (a : ResampleArgs) (batch_id sample_id channel : ℕ)
    (value : ℚ) (grad_warp : ℕ → ℚ) : ℕ → ℚ :=
  bumpAt grad_warp (batch_id * a.warp_batch_stride + sample_id * 2 + channel)
    value

/-- Body of the channel loop of the backward pass (lines 320-348): read the
upstream gradient, the four corner pixels, then perform the two
`update_grad_warp` and four `update_grad_data` accumulations in order. -/
def grad_channel_update (a : ResampleArgs) (grad_output : ℕ → ℚ)
    (batch_id sample_id chan : ℕ) (st : GradState) : GradState :=
  let x := a.warpX batch_id sample_id
  let y := a.warpY batch_id sample_id
  let fx : ℤ := ⌊x⌋
  let fy : ℤ := ⌊y⌋
  let cx : ℤ := fx + 1
  let cy : ℤ := fy + 1
  let dx : ℚ := (cx : ℚ) - x
  let dy : ℚ := (cy : ℚ) - y
  let grad_output_value :=
    grad_output (batch_id * a.output_batch_stride +
      sample_id * a.data_channels + chan)
  let img_fxfy := a.get_data_point batch_id fx fy chan
  let img_cxcy := a.get_data_point batch_id cx cy chan
  let img_fxcy := a.get_data_point batch_id fx cy chan
  let img_cxfy := a.get_data_point batch_id cx fy chan
  let gw1 := update_grad_warp a batch_id sample_id 0
    (grad_output_value *
      ((1 - dy) * (img_cxcy - img_fxcy) + dy * (img_cxfy - img_fxfy)))
    st.grad_warp
  let gw2 := update_grad_warp a batch_id sample_id 1
    (grad_output_value *
      ((1 - dx) * (img_cxcy - img_cxfy) + dx * (img_fxcy - img_fxfy)))
    gw1
  let gd1 := update_grad_data a batch_id fx fy chan
    (grad_output_value * dx * dy) st.grad_data
  let gd2 := update_grad_data a batch_id cx cy chan
    (grad_output_value * (1 - dx) * (1 - dy)) gd1
  let gd3 := update_grad_data a batch_id fx cy chan
    (grad_output_value * dx * (1 - dy)) gd2
  let gd4 := update_grad_data a batch_id cx fy chan
    (grad_output_value * (1 - dx) * dy) gd3
  ⟨gd4, gw2⟩

/-- Body of the sample loop of the backward pass (lines 299-350): inside the
validity window run the channel loop, outside it leave both gradient buffers
untouched. -/
def grad_sample_update (a : ResampleArgs) (grad_output : ℕ → ℚ)
    (batch_id sample_id : ℕ) (st : GradState) : GradState :=
  let x := a.warpX batch_id sample_id
  let y := a.warpY batch_id sample_id
  if inWindow x y a.data_width a.data_height then
    (List.range a.data_channels).foldl
      (fun st chan => grad_channel_update a grad_output batch_id sample_id chan st)
      st
  else st

/-- One batch entry of `update_grads_for_batches`: the sample loop. -/
def grad_batch_update (a : ResampleArgs) (grad_output : ℕ → ℚ)
    (batch_id : ℕ) (st : GradState) : GradState :=
  (List.range a.num_sampling_points).foldl
    (fun st sample_id => grad_sample_update a grad_output batch_id sample_id st)
    st

/-- Embedding of `ResamplerGrad2DFunctor<CPUDevice, T>::operator()` (lines
244-365): first `memset` both gradient buffers to zero over their exact
sizes (lines 252-260), then run `update_grads_for_batches` over all batch
entries. -/
def ResamplerGrad2DFunctor (a : ResampleArgs) (grad_output : ℕ → ℚ)
    (grad_data0 grad_warp0 : ℕ → ℚ) : GradState :=
  let resampler_output_size :=
    a.batch_size * a.num_sampling_points * a.data_channels
  let grad_warp_size := resampler_output_size / a.data_channels * 2
  let grad_data_size :=
    a.data_height * a.data_width * a.data_channels * a.batch_size
  let st0 : GradState :=
    ⟨fun i => if i < grad_data_size then 0 else grad_data0 i,
     fun i => if i < grad_warp_size then 0 else grad_warp0 i⟩
  (List.range a.batch_size).foldl
    (fun st batch_id => grad_batch_update a grad_output batch_id st) st0

/-! ## Operator entry points (`ResamplerOp`, `ResamplerGradOp`) -/

/-- Number of elements of a tensor shape (`Tensor::NumElements`). -/
def numElements (shape : List ℕ) : ℕ := shape.prod

/-- Shape surgery `shape.set_dim(shape.dims() - 1, v)`: replace the last
dimension. -/
def setLastDim (shape : List ℕ) (v : ℕ) : List ℕ :=
  shape.dropLast ++ [v]

/-- Embedding of `ResamplerOp::ResamplerOp` (lines 159-166): resolve the
`kernel_type` attribute string; `OP_REQUIRES` with `InvalidArgument` fails
construction when the sentinel comes back. -/
def ResamplerOpConstruct (kernel_type_str : String) :
    Except OpError SamplingKernelType :=
  let kernel_type := SamplingKernelTypeFromString kernel_type_str
  if kernel_type ≠ SamplingKernelType.SamplingKernelTypeEnd then .ok kernel_type
  else .error .invalidArgument

/-- Embedding of `ResamplerGradOp::ResamplerGradOp` (lines 369-372): the
constructor body is empty — it reads no attribute and performs no check, so
construction always succeeds whatever the construction context holds. -/
def ResamplerGradOpConstruct {Ctx : Type} (context : Ctx) :
    Except OpError Unit :=
  .ok ()

/-- Shape checks of `ResamplerOp::Compute` (lines 173-195), in source order:
`data` rank 4 (`Unimplemented`), `warp` at least a matrix
(`InvalidArgument`), `warp` trailing dimension 2 (`Unimplemented`), equal
batch sizes (`InvalidArgument`). -/
def resamplerOpShapeChecks (data_shape warp_shape : List ℕ) : Option OpError :=
  if data_shape.length ≠ 4 then some .unimplemented
  else if warp_shape.length < 2 then some .invalidArgument
  else if warp_shape.getLastD 0 ≠ 2 then some .unimplemented
  else if data_shape.headD 0 ≠ warp_shape.headD 0 then some .invalidArgument
  else none

/-- Embedding of `ResamplerOp::Compute` (lines 168-213): run the shape
checks; allocate the output with the warp's shape and trailing dimension
`data_channels` (its initial contents `output0` are whatever allocation
yields); invoke the functor only when both `data` and `warp` are nonempty,
otherwise leave the allocated buffer untouched. -/
def ResamplerOpCompute (kernel_type : SamplingKernelType)
    (data_shape warp_shape : List ℕ) (data warp output0 : ℕ → ℚ) :
    Except OpError (List ℕ × (ℕ → ℚ)) :=
  match resamplerOpShapeChecks data_shape warp_shape with
  | some e => .error e
  | none =>
    let batch_size := data_shape.headD 0
    let data_height := data_shape.getD 1 0
    let data_width := data_shape.getD 2 0
    let data_channels := data_shape.getD 3 0
    let output_shape := setLastDim warp_shape data_channels
    if 0 < numElements data_shape ∧ 0 < numElements warp_shape then
      let num_sampling_points := numElements warp_shape / batch_size / 2
      .ok (output_shape,
        Resampler2DFunctor
          ⟨batch_size, data_height, data_width, data_channels,
            num_sampling_points, data, warp⟩
          kernel_type output0)
    else .ok (output_shape, output0)

/-- Shape checks of `ResamplerGradOp::Compute` (lines 379-411), in source
order: `data` rank 4 (`Unimplemented`), `warp` at least a matrix
(`InvalidArgument`), `warp` trailing dimension 2 (`Unimplemented`),
`grad_output` shape equal to the warp shape with trailing dimension
`data_channels` (`InvalidArgument`).  No batch-size comparison is made. -/
def resamplerGradOpShapeChecks (data_shape warp_shape grad_output_shape : List ℕ) :
    Option OpError :=
  if data_shape.length ≠ 4 then some .unimplemented
  else if warp_shape.length < 2 then some .invalidArgument
  else if warp_shape.getLastD 0 ≠ 2 then some .unimplemented
  else if grad_output_shape ≠ setLastDim warp_shape (data_shape.getD 3 0) then
    some .invalidArgument
  else none

/-- Embedding of `ResamplerGradOp::Compute` (lines 374-425): run the shape
checks; allocate `grad_data` with the data shape and `grad_warp` with the
warp shape (initial contents `grad_data0` / `grad_warp0`); invoke the
gradient functor only when both `data` and `warp` are nonempty, otherwise
leave both allocated buffers untouched. -/
def ResamplerGradOpCompute (data_shape warp_shape grad_output_shape : List ℕ)
    (data warp grad_output grad_data0 grad_warp0 : ℕ → ℚ) :
    Except OpError ((List ℕ × (ℕ → ℚ)) × (List ℕ × (ℕ → ℚ))) :=
  match resamplerGradOpShapeChecks data_shape warp_shape grad_output_shape with
  | some e => .error e
  | none =>
    let batch_size := data_shape.headD 0
    let data_height := data_shape.getD 1 0
    let data_width := data_shape.getD 2 0
    let data_channels := data_shape.getD 3 0
    if 0 < numElements data_shape ∧ 0 < numElements warp_shape then
      let num_sampling_points := numElements warp_shape / batch_size / 2
      let st := ResamplerGrad2DFunctor
        ⟨batch_size, data_height, data_width, data_channels,
          num_sampling_points, data, warp⟩
        grad_output grad_data0 grad_warp0
      .ok ((data_shape, st.grad_data), (warp_shape, st.grad_warp))
    else .ok ((data_shape, grad_data0), (warp_shape, grad_warp0))

/-! ## Helper lemmas -/

lemma foldl_add_eq (f : ℤ → ℚ) (l : List ℤ) (init : ℚ) :
    l.foldl (fun res i => res + f i) init = init + (l.map f).sum := by
  induction l generalizing init with
  | nil => simp
  | cons hd tl ih => simp [ih, add_assoc]

lemma list_range_sum (g : ℕ → ℚ) (n : ℕ) :
    ((List.range n).map g).sum = ∑ i in Finset.range n, g i := by
  induction n with
  | zero => simp
  | succ n ih => rw [Finset.sum_range_succ, List.range_succ]; simp [ih]

lemma sum_map_intRange (f : ℤ → ℚ) (lo hi : ℤ) :
    ((intRange lo hi).map f).sum = ∑ i in Finset.Icc lo hi, f i := by
  rw [Int.Icc_eq_finset_map, Finset.sum_map]
  unfold intRange
  rw [List.map_map, list_range_sum]
  simp

/-- The nested accumulation loops compute the separable double sum over the
offset square `[-span, span] × [-span, span]`. -/
lemma resampleChannelLoop_eq_sum (kernel : SamplingKernel) (gp : ℤ → ℤ → ℚ)
    (x y : ℚ) :
    resampleChannelLoop kernel gp x y =
      ∑ inx in Finset.Icc (-⌈kernel.Radius⌉) ⌈kernel.Radius⌉,
        ∑ iny in Finset.Icc (-⌈kernel.Radius⌉) ⌈kernel.Radius⌉,
          gp (⌊x⌋ + inx) (⌊y⌋ + iny) *
            (kernel.w ((⌊x⌋ + inx : ℤ) - x) * kernel.w ((⌊y⌋ + iny : ℤ) - y)) := by
  unfold resampleChannelLoop
  simp only [foldl_add_eq, sum_map_intRange, zero_add]

lemma resampleAllWith_at (a : ResampleArgs) (kernel : SamplingKernel)
    (out : ℕ → ℚ) (b s chan : ℕ) (hb : b < a.batch_size)
    (hs : s < a.num_sampling_points) (hc : chan < a.data_channels) :
    resampleAllWith a kernel out
      (b * a.output_batch_stride + s * a.data_channels + chan) =
      sample_output a kernel b s chan := by
  have hC : 0 < a.data_channels := lt_of_le_of_lt (Nat.zero_le _) hc
  have hN : 0 < a.num_sampling_points := lt_of_le_of_lt (Nat.zero_le _) hs
  have hobs : 0 < a.output_batch_stride := Nat.mul_pos hN hC
  have hr : s * a.data_channels + chan < a.output_batch_stride := by
    calc s * a.data_channels + chan < s * a.data_channels + a.data_channels := by
          omega
      _ = (s + 1) * a.data_channels := by ring
      _ ≤ a.num_sampling_points * a.data_channels := Nat.mul_le_mul_right _ hs
      _ = a.output_batch_stride := rfl
  have hi : b * a.output_batch_stride + (s * a.data_channels + chan) <
      a.batch_size * a.output_batch_stride := by
    calc b * a.output_batch_stride + (s * a.data_channels + chan) <
        b * a.output_batch_stride + a.output_batch_stride := by omega
      _ = (b + 1) * a.output_batch_stride := by ring
      _ ≤ a.batch_size * a.output_batch_stride := Nat.mul_le_mul_right _ hb
  have hdiv : (b * a.output_batch_stride + s * a.data_channels + chan) /
      a.output_batch_stride = b := by
    rw [Nat.add_assoc, Nat.mul_comm b, Nat.mul_add_div hobs,
      Nat.div_eq_of_lt hr]
    omega
  have hmod : (b * a.output_batch_stride + s * a.data_channels + chan) %
      a.output_batch_stride = s * a.data_channels + chan := by
    rw [Nat.add_assoc, Nat.mul_comm b, Nat.mul_add_mod, Nat.mod_eq_of_lt hr]
  have hdiv2 : (s * a.data_channels + chan) / a.data_channels = s := by
    rw [Nat.mul_comm s, Nat.mul_add_div hC, Nat.div_eq_of_lt hc, Nat.add_zero]
  have hmodC : (b * a.output_batch_stride + s * a.data_channels + chan) %
      a.data_channels = chan := by
    have hrw : b * a.output_batch_stride + s * a.data_channels + chan =
        a.data_channels * (b * a.num_sampling_points + s) + chan := by
      unfold ResampleArgs.output_batch_stride; ring
    rw [hrw, Nat.mul_add_mod, Nat.mod_eq_of_lt hc]
  unfold resampleAllWith
  rw [if_pos ⟨hC, hN, by omega⟩, hdiv, hmod, hdiv2, hmodC]

lemma bumpAt_apply (f : ℕ → ℚ) (i : ℕ) (v : ℚ) (j : ℕ) :
    bumpAt f i v j = f j + if j = i then v else 0 := by
  unfold bumpAt
  split <;> simp

lemma update_grad_warp_apply (a : ResampleArgs) (b s c : ℕ) (v : ℚ)
    (g : ℕ → ℚ) (j : ℕ) :
    update_grad_warp a b s c v g j =
      g j + if j = b * a.warp_batch_stride + s * 2 + c then v else 0 := by
  unfold update_grad_warp
  exact bumpAt_apply ..

lemma update_grad_data_apply (a : ResampleArgs) (b : ℕ) (x y : ℤ) (c : ℕ)
    (v : ℚ) (g : ℕ → ℚ) (j : ℕ) :
    update_grad_data a b x y c v g j =
      g j + if (0 ≤ x ∧ 0 ≤ y ∧ x < (a.data_width : ℤ) ∧ y < (a.data_height : ℤ)) ∧
          j = b * a.data_batch_stride +
            a.data_channels * (y.toNat * a.data_width + x.toNat) + c then v
        else 0 := by
  unfold update_grad_data
  by_cases h : 0 ≤ x ∧ 0 ≤ y ∧ x ≤ (a.data_width : ℤ) - 1 ∧
      y ≤ (a.data_height : ℤ) - 1
  · rw [if_pos h, bumpAt_apply]
    have h' : 0 ≤ x ∧ 0 ≤ y ∧ x < (a.data_width : ℤ) ∧
        y < (a.data_height : ℤ) := by omega
    simp [h'.1, h'.2.1, h'.2.2.1, h'.2.2.2]
  · rw [if_neg h]
    have h' : ¬ (0 ≤ x ∧ 0 ≤ y ∧ x < (a.data_width : ℤ) ∧
        y < (a.data_height : ℤ)) := by omega
    simp [h']

/-! ## Concrete-evaluation lemmas -/

lemma floor_half : ⌊(1/2 : ℚ)⌋ = 0 := by
  rw [Int.floor_eq_iff] <;> norm_num

lemma keys_radius_ceil : ⌈CreateKeysCubicKernel.Radius⌉ = 2 := by
  simp [CreateKeysCubicKernel]

lemma tri_radius_ceil : ⌈CreateTriangleKernel.Radius⌉ = 1 := by
  simp [CreateTriangleKernel]

lemma intRange_two : intRange (-2) 2 = [-2, -1, 0, 1, 2] := by decide

lemma intRange_one : intRange (-1) 1 = [-1, 0, 1] := by decide

/-- Single-pixel image (all sizes 1), pixel value 1, single warp coordinate
`(1/2, 1/2)`: the sample point at the center of the only pixel's cell. -/
def onePixelArgs : ResampleArgs :=
  { batch_size := 1, data_height := 1, data_width := 1, data_channels := 1,
    num_sampling_points := 1, data := fun _ => 1, warp := fun _ => 1/2 }

/-- C1: the forward per-sample computation does NOT honor the kernel resolved
from the operator's `kernel_type` attribute.  The functor's output is
invariant under the kernel id it is handed (first conjunct: line 76 hardcodes
`CreateKeysCubicKernel`), and on a concrete one-pixel image sampled at
`(1/2, 1/2)` with `kernel_type = TriangleKernel` it produces the Keys-cubic
value `81/256`, whereas a forward pass honoring the resolved triangle kernel
(as the spec requires) produces `1/4`. -/
theorem C1_forward_ignores_kernel_type :
    (∀ (a : ResampleArgs) (output : ℕ → ℚ) (kt kt' : SamplingKernelType),
      Resampler2DFunctor a kt output = Resampler2DFunctor a kt' output) ∧
    Resampler2DFunctor onePixelArgs SamplingKernelType.TriangleKernel
      (fun _ => 0) 0 = 81/256 ∧
    Resampler2DFunctorHonoringKernel onePixelArgs CreateTriangleKernel
      (fun _ => 0) 0 = 1/4 ∧
    (81/256 : ℚ) ≠ 1/4 := by
  refine ⟨fun a out kt kt' => rfl, ?_, ?_, by norm_num⟩
  · norm_num [Resampler2DFunctor, resampleAllWith, onePixelArgs, sample_output,
      inWindow, ResampleArgs.warpX, ResampleArgs.warpY,
      ResampleArgs.output_batch_stride, ResampleArgs.warp_batch_stride,
      resampleChannelLoop, keys_radius_ceil, floor_half, intRange_two,
      ResampleArgs.get_data_point, ResampleArgs.data_batch_stride,
      CreateKeysCubicKernel, abs]
  · norm_num [Resampler2DFunctorHonoringKernel, resampleAllWith, onePixelArgs,
      sample_output, inWindow, ResampleArgs.warpX, ResampleArgs.warpY,
      ResampleArgs.output_batch_stride, ResampleArgs.warp_batch_stride,
      resampleChannelLoop, tri_radius_ceil, floor_half, intRange_one,
      ResampleArgs.get_data_point, ResampleArgs.data_batch_stride,
      CreateTriangleKernel, abs]

/-- C6: construction of the forward operator succeeds exactly when the
`kernel_type` string lower-cases to one of the eight recognized names; any
other string makes `SamplingKernelTypeFromString` return the sentinel and
construction fail right there with an invalid-argument error (never at
invocation). -/
theorem C6_construction_iff_recognized : ∀ s : String,
    ((ResamplerOpConstruct s).isOk = true ↔
      asciiStrToLower s ∈ ["lanczos1", "lanczos3", "lanczos5", "gaussian",
        "box", "triangle", "keyscubic", "mitchellcubic"]) ∧
    (SamplingKernelTypeFromString s = .SamplingKernelTypeEnd →
      ResamplerOpConstruct s = .error .invalidArgument) := by
  intro s
  constructor
  · simp only [ResamplerOpConstruct, SamplingKernelTypeFromString]
    split_ifs <;> simp_all [Except.isOk, Except.toBool]
  · intro h
    simp [ResamplerOpConstruct, h]

/-- C10: the backward operator's constructor has an empty body, so its
construction succeeds for every construction context; by contrast the forward
constructor can fail on an unrecognized kernel name, and the backward op can
still fail at invocation time on a shape violation. -/
theorem C10_grad_construction_always_succeeds :
    (∀ (Ctx : Type) (context : Ctx), ResamplerGradOpConstruct context = .ok ()) ∧
    ResamplerOpConstruct "unknownkernel" = .error .invalidArgument ∧
    ResamplerGradOpCompute [1] [2, 2] [2, 1] (fun _ => 0) (fun _ => 0)
      (fun _ => 0) (fun _ => 0) (fun _ => 0) = .error .unimplemented :=
  ⟨fun _ _ => rfl, rfl, rfl⟩

/-! ## Forward per-sample claims -/

/-- C3: for an in-window sample, each channel's forward output is the double
sum over all integer offset pairs in `[-span, span] × [-span, span]`, with
`span = ceil(kernel.Radius)`, of the separable weight
`kernel.w(cx - x) * kernel.w(cy - y)` times the stored pixel value when
`0 ≤ cx < width` and `0 ≤ cy < height` and times zero otherwise, where
`(cx, cy) = (floor(x) + inx, floor(y) + iny)`; the kernel in use is the
hardcoded Keys cubic one (see C1). -/
theorem C3_forward_separable_sum (a : ResampleArgs)
    (kt : SamplingKernelType) (output : ℕ → ℚ) (b s chan : ℕ)
    (hb : b < a.batch_size) (hs : s < a.num_sampling_points)
    (hc : chan < a.data_channels)
    (hw : inWindow (a.warpX b s) (a.warpY b s) a.data_width a.data_height) :
    Resampler2DFunctor a kt output
        (b * a.output_batch_stride + s * a.data_channels + chan) =
      ∑ inx in Finset.Icc (-⌈CreateKeysCubicKernel.Radius⌉)
          ⌈CreateKeysCubicKernel.Radius⌉,
        ∑ iny in Finset.Icc (-⌈CreateKeysCubicKernel.Radius⌉)
            ⌈CreateKeysCubicKernel.Radius⌉,
          (CreateKeysCubicKernel.w ((⌊a.warpX b s⌋ + inx : ℤ) - a.warpX b s) *
              CreateKeysCubicKernel.w ((⌊a.warpY b s⌋ + iny : ℤ) - a.warpY b s)) *
            (if 0 ≤ ⌊a.warpX b s⌋ + inx ∧ 0 ≤ ⌊a.warpY b s⌋ + iny ∧
                ⌊a.warpX b s⌋ + inx < (a.data_width : ℤ) ∧
                ⌊a.warpY b s⌋ + iny < (a.data_height : ℤ) then
              a.data (b * a.data_batch_stride +
                a.data_channels * ((⌊a.warpY b s⌋ + iny).toNat * a.data_width +
                  (⌊a.warpX b s⌋ + inx).toNat) + chan)
            else 0) := by
  show resampleAllWith a CreateKeysCubicKernel output _ = _
  rw [resampleAllWith_at a CreateKeysCubicKernel output b s chan hb hs hc]
  simp only [sample_output]
  rw [if_pos hw, resampleChannelLoop_eq_sum]
  refine Finset.sum_congr rfl fun inx _ => Finset.sum_congr rfl fun iny _ => ?_
  simp only [ResampleArgs.get_data_point]
  have hiff : (0 ≤ ⌊a.warpX b s⌋ + inx ∧ 0 ≤ ⌊a.warpY b s⌋ + iny ∧
      ⌊a.warpX b s⌋ + inx ≤ (a.data_width : ℤ) - 1 ∧
      ⌊a.warpY b s⌋ + iny ≤ (a.data_height : ℤ) - 1) ↔
      (0 ≤ ⌊a.warpX b s⌋ + inx ∧ 0 ≤ ⌊a.warpY b s⌋ + iny ∧
      ⌊a.warpX b s⌋ + inx < (a.data_width : ℤ) ∧
      ⌊a.warpY b s⌋ + iny < (a.data_height : ℤ)) := by omega
  rw [mul_comm]
  simp only [hiff]

/-- Witness arguments: a 2×2 single-channel image with every pixel 1 and the
single warp coordinate `(0, 0)` (strictly inside the window). -/
def inWindowArgs : ResampleArgs :=
  { batch_size := 1, data_height := 2, data_width := 2, data_channels := 1,
    num_sampling_points := 1, data := fun _ => 1, warp := fun _ => 0 }

/-- Witness for C3 at `inWindowArgs`, sample `(0,0)`, channel 0. -/
theorem C3_forward_separable_sum_witness :
    Resampler2DFunctor inWindowArgs SamplingKernelType.KeysCubicKernel
        (fun _ => 0)
        (0 * inWindowArgs.output_batch_stride +
          0 * inWindowArgs.data_channels + 0) =
      ∑ inx in Finset.Icc (-⌈CreateKeysCubicKernel.Radius⌉)
          ⌈CreateKeysCubicKernel.Radius⌉,
        ∑ iny in Finset.Icc (-⌈CreateKeysCubicKernel.Radius⌉)
            ⌈CreateKeysCubicKernel.Radius⌉,
          (CreateKeysCubicKernel.w
              ((⌊inWindowArgs.warpX 0 0⌋ + inx : ℤ) - inWindowArgs.warpX 0 0) *
              CreateKeysCubicKernel.w
              ((⌊inWindowArgs.warpY 0 0⌋ + iny : ℤ) - inWindowArgs.warpY 0 0)) *
            (if 0 ≤ ⌊inWindowArgs.warpX 0 0⌋ + inx ∧
                0 ≤ ⌊inWindowArgs.warpY 0 0⌋ + iny ∧
                ⌊inWindowArgs.warpX 0 0⌋ + inx < (inWindowArgs.data_width : ℤ) ∧
                ⌊inWindowArgs.warpY 0 0⌋ + iny < (inWindowArgs.data_height : ℤ) then
              inWindowArgs.data (0 * inWindowArgs.data_batch_stride +
                inWindowArgs.data_channels *
                  ((⌊inWindowArgs.warpY 0 0⌋ + iny).toNat * inWindowArgs.data_width +
                    (⌊inWindowArgs.warpX 0 0⌋ + inx).toNat) + 0)
            else 0) :=
  C3_forward_separable_sum inWindowArgs SamplingKernelType.KeysCubicKernel
    (fun _ => 0) 0 0 0 (by decide) (by decide) (by decide) (by decide)

/-- C4: a sample whose warp coordinate falls outside the validity window has
every channel of its output set to exactly zero. -/
theorem C4_out_of_window_zero (a : ResampleArgs)
    (kt : SamplingKernelType) (output : ℕ → ℚ) (b s chan : ℕ)
    (hb : b < a.batch_size) (hs : s < a.num_sampling_points)
    (hc : chan < a.data_channels)
    (hw : ¬ inWindow (a.warpX b s) (a.warpY b s) a.data_width a.data_height) :
    Resampler2DFunctor a kt output
      (b * a.output_batch_stride + s * a.data_channels + chan) = 0 := by
  show resampleAllWith a CreateKeysCubicKernel output _ = _
  rw [resampleAllWith_at a CreateKeysCubicKernel output b s chan hb hs hc]
  simp only [sample_output]
  rw [if_neg hw]

/-- Witness arguments: a 2×2 single-channel image whose single warp
coordinate `(5, 5)` lies outside the validity window. -/
def outOfWindowArgs : ResampleArgs :=
  { batch_size := 1, data_height := 2, data_width := 2, data_channels := 1,
    num_sampling_points := 1, data := fun _ => 1, warp := fun _ => 5 }

/-- Witness for C4 at `outOfWindowArgs`, sample `(0,0)`, channel 0. -/
theorem C4_out_of_window_zero_witness :
    Resampler2DFunctor outOfWindowArgs SamplingKernelType.KeysCubicKernel
      (fun _ => 0)
      (0 * outOfWindowArgs.output_batch_stride +
        0 * outOfWindowArgs.data_channels + 0) = 0 :=
  C4_out_of_window_zero outOfWindowArgs SamplingKernelType.KeysCubicKernel
    (fun _ => 0) 0 0 0 (by decide) (by decide) (by decide) (by decide)

/-! ## Backward per-sample claims -/

/-- C8: a backward sample whose warp coordinate falls outside the validity
window modifies neither gradient buffer: the gradient state after processing
the sample equals the state before it, at every index. -/
theorem C8_out_of_window_no_grad (a : ResampleArgs) (grad_output : ℕ → ℚ)
    (b s : ℕ) (st : GradState)
    (hw : ¬ inWindow (a.warpX b s) (a.warpY b s) a.data_width a.data_height) :
    grad_sample_update a grad_output b s st = st := by
  simp only [grad_sample_update]
  rw [if_neg hw]

/-- Witness for C8 at `outOfWindowArgs`, sample `(0,0)`. -/
theorem C8_out_of_window_no_grad_witness :
    grad_sample_update outOfWindowArgs (fun _ => 1) 0 0
      ⟨fun _ => 3, fun _ => 4⟩ = ⟨fun _ => 3, fun _ => 4⟩ :=
  C8_out_of_window_no_grad outOfWindowArgs (fun _ => 1) 0 0
    ⟨fun _ => 3, fun _ => 4⟩ (by decide)

/-- In-bounds predicate of the gradient scatter-add target grid,
`[0, data_width) × [0, data_height)`. -/
def inBounds (a : ResampleArgs) (x y : ℤ) : Prop :=
  0 ≤ x ∧ 0 ≤ y ∧ x < (a.data_width : ℤ) ∧ y < (a.data_height : ℤ)

instance (a : ResampleArgs) (x y : ℤ) : Decidable (inBounds a x y) := by
  unfold inBounds; infer_instance

/-- Flat index of pixel `(x, y)`, channel `chan`, batch entry `batch_id` in
the `grad_data` buffer (same layout as `data`). -/
def gradDataIdx (a : ResampleArgs) (batch_id : ℕ) (x y : ℤ) (chan : ℕ) : ℕ :=
  batch_id * a.data_batch_stride +
    a.data_channels * (y.toNat * a.data_width + x.toNat) + chan

/-- C2: for an in-window backward sample the accumulated gradients are
exactly the six stated bilinear equations, per channel: with
`fx = floor x`, `fy = floor y`, `cx = fx+1`, `cy = fy+1`, `dx = cx-x`,
`dy = cy-y`, corner pixel values implicitly zero outside bounds, the sample's
processing is the channel loop, and each channel update adds
`g*((1-dy)(I_cc-I_fc)+dy(I_cf-I_ff))` to `gradWarp.x`,
`g*((1-dx)(I_cc-I_cf)+dx(I_fc-I_ff))` to `gradWarp.y`, and scatter-adds
`g*dx*dy`, `g*(1-dx)*(1-dy)`, `g*dx*(1-dy)`, `g*(1-dx)*dy` into
`gradImage` at the four corners, skipping any corner outside
`[0,width)×[0,height)`; no other buffer location changes. -/
theorem C2_backward_gradient_equations (a : ResampleArgs)
    (grad_output : ℕ → ℚ) (b s : ℕ) (st : GradState)
    (hw : inWindow (a.warpX b s) (a.warpY b s) a.data_width a.data_height) :
    grad_sample_update a grad_output b s st =
      (List.range a.data_channels).foldl
        (fun st chan => grad_channel_update a grad_output b s chan st) st ∧
    ∀ (chan : ℕ) (st' : GradState) (j : ℕ),
      let x := a.warpX b s
      let y := a.warpY b s
      let fx : ℤ := ⌊x⌋
      let fy : ℤ := ⌊y⌋
      let cx : ℤ := fx + 1
      let cy : ℤ := fy + 1
      let dx : ℚ := (cx : ℚ) - x
      let dy : ℚ := (cy : ℚ) - y
      let g := grad_output (b * a.output_batch_stride +
        s * a.data_channels + chan)
      let img_fxfy := a.get_data_point b fx fy chan
      let img_cxcy := a.get_data_point b cx cy chan
      let img_fxcy := a.get_data_point b fx cy chan
      let img_cxfy := a.get_data_point b cx fy chan
      ((grad_channel_update a grad_output b s chan st').grad_warp j =
        st'.grad_warp j +
          (if j = b * a.warp_batch_stride + s * 2 then
            g * ((1 - dy) * (img_cxcy - img_fxcy) + dy * (img_cxfy - img_fxfy))
          else 0) +
          (if j = b * a.warp_batch_stride + s * 2 + 1 then
            g * ((1 - dx) * (img_cxcy - img_cxfy) + dx * (img_fxcy - img_fxfy))
          else 0)) ∧
      ((grad_channel_update a grad_output b s chan st').grad_data j =
        st'.grad_data j +
          (if inBounds a fx fy ∧ j = gradDataIdx a b fx fy chan then
            g * dx * dy else 0) +
          (if inBounds a cx cy ∧ j = gradDataIdx a b cx cy chan then
            g * (1 - dx) * (1 - dy) else 0) +
          (if inBounds a fx cy ∧ j = gradDataIdx a b fx cy chan then
            g * dx * (1 - dy) else 0) +
          (if inBounds a cx fy ∧ j = gradDataIdx a b cx fy chan then
            g * (1 - dx) * dy else 0)) := by
  refine ⟨?_, ?_⟩
  · simp only [grad_sample_update]
    rw [if_pos hw]
  · intro chan st' j
    refine ⟨?_, ?_⟩
    · simp only [grad_channel_update, update_grad_warp_apply, add_zero]
    · simp only [grad_channel_update, update_grad_data_apply, inBounds,
        gradDataIdx]

/-- Witness for C2 at `inWindowArgs`, sample `(0,0)`: the in-window sample is
processed by the channel loop. -/
theorem C2_backward_gradient_equations_witness :
    grad_sample_update inWindowArgs (fun _ => 1) 0 0
        ⟨fun _ => 0, fun _ => 0⟩ =
      (List.range inWindowArgs.data_channels).foldl
        (fun st chan =>
          grad_channel_update inWindowArgs (fun _ => 1) 0 0 chan st)
        ⟨fun _ => 0, fun _ => 0⟩ :=
  (C2_backward_gradient_equations inWindowArgs (fun _ => 1) 0 0
    ⟨fun _ => 0, fun _ => 0⟩ (by decide)).1

/-! ## Operator-level claims -/

lemma resamplerOpShapeChecks_none (ds ws : List ℕ)
    (h : resamplerOpShapeChecks ds ws = none) :
    ds.length = 4 ∧ 2 ≤ ws.length ∧ ws.getLastD 0 = 2 ∧
      ds.headD 0 = ws.headD 0 := by
  unfold resamplerOpShapeChecks at h
  split_ifs at h <;> simp_all

lemma ResamplerOpCompute_error (kt : SamplingKernelType) (ds ws : List ℕ)
    (data warp out : ℕ → ℚ) (e : OpError)
    (h : resamplerOpShapeChecks ds ws = some e) :
    ResamplerOpCompute kt ds ws data warp out = .error e := by
  unfold ResamplerOpCompute
  rw [h]

lemma ResamplerGradOpCompute_error (ds ws gos : List ℕ)
    (data warp go gd0 gw0 : ℕ → ℚ) (e : OpError)
    (h : resamplerGradOpShapeChecks ds ws gos = some e) :
    ResamplerGradOpCompute ds ws gos data warp go gd0 gw0 = .error e := by
  unfold ResamplerGradOpCompute
  rw [h]

lemma ResamplerGradOpCompute_ok (ds ws gos : List ℕ)
    (data warp go gd0 gw0 : ℕ → ℚ)
    (h : resamplerGradOpShapeChecks ds ws gos = none) :
    (ResamplerGradOpCompute ds ws gos data warp go gd0 gw0).isOk = true := by
  unfold ResamplerGradOpCompute
  rw [h]
  dsimp only
  split <;> rfl

/-- C7 (amended): the shape checks reject, before any per-element work, with
the error classes the code actually uses: a data-rank violation or a warp
trailing-dimension violation is `unimplemented`, a warp-rank violation is
`invalid-argument` (not `unimplemented`), a forward batch-size mismatch and a
backward grad-output-shape mismatch are `invalid-argument`; the backward op
performs no batch-size comparison at all, so it accepts inputs that pass its
other checks whatever the two batch sizes are. -/
theorem C7_shape_validation (kt : SamplingKernelType) (ds ws gos : List ℕ)
    (data warp go out gd0 gw0 : ℕ → ℚ) :
    (ds.length ≠ 4 →
      ResamplerOpCompute kt ds ws data warp out = .error .unimplemented ∧
      ResamplerGradOpCompute ds ws gos data warp go gd0 gw0 =
        .error .unimplemented) ∧
    (ds.length = 4 → ws.length < 2 →
      ResamplerOpCompute kt ds ws data warp out = .error .invalidArgument ∧
      ResamplerGradOpCompute ds ws gos data warp go gd0 gw0 =
        .error .invalidArgument) ∧
    (ds.length = 4 → 2 ≤ ws.length → ws.getLastD 0 ≠ 2 →
      ResamplerOpCompute kt ds ws data warp out = .error .unimplemented ∧
      ResamplerGradOpCompute ds ws gos data warp go gd0 gw0 =
        .error .unimplemented) ∧
    (ds.length = 4 → 2 ≤ ws.length → ws.getLastD 0 = 2 →
      ds.headD 0 ≠ ws.headD 0 →
      ResamplerOpCompute kt ds ws data warp out = .error .invalidArgument) ∧
    (ds.length = 4 → 2 ≤ ws.length → ws.getLastD 0 = 2 →
      gos ≠ setLastDim ws (ds.getD 3 0) →
      ResamplerGradOpCompute ds ws gos data warp go gd0 gw0 =
        .error .invalidArgument) ∧
    (ds.length = 4 → 2 ≤ ws.length → ws.getLastD 0 = 2 →
      gos = setLastDim ws (ds.getD 3 0) →
      (ResamplerGradOpCompute ds ws gos data warp go gd0 gw0).isOk = true) := by
  refine ⟨fun h1 => ⟨?_, ?_⟩, fun h1 h2 => ⟨?_, ?_⟩, fun h1 h2 h3 => ⟨?_, ?_⟩,
    fun h1 h2 h3 h4 => ?_, fun h1 h2 h3 h4 => ?_, fun h1 h2 h3 h4 => ?_⟩
  · exact ResamplerOpCompute_error kt ds ws data warp out _
      (by simp [resamplerOpShapeChecks, h1])
  · exact ResamplerGradOpCompute_error ds ws gos data warp go gd0 gw0 _
      (by simp [resamplerGradOpShapeChecks, h1])
  · exact ResamplerOpCompute_error kt ds ws data warp out _
      (by simp [resamplerOpShapeChecks, h1, h2])
  · exact ResamplerGradOpCompute_error ds ws gos data warp go gd0 gw0 _
      (by simp [resamplerGradOpShapeChecks, h1, h2])
  · exact ResamplerOpCompute_error kt ds ws data warp out _
      (by unfold resamplerOpShapeChecks
          rw [if_neg (by omega), if_neg (by omega), if_pos h3])
  · exact ResamplerGradOpCompute_error ds ws gos data warp go gd0 gw0 _
      (by unfold resamplerGradOpShapeChecks
          rw [if_neg (by omega), if_neg (by omega), if_pos h3])
  · exact ResamplerOpCompute_error kt ds ws data warp out _
      (by unfold resamplerOpShapeChecks
          rw [if_neg (by omega), if_neg (by omega),
            if_neg (fun hn => hn h3), if_pos h4])
  · exact ResamplerGradOpCompute_error ds ws gos data warp go gd0 gw0 _
      (by unfold resamplerGradOpShapeChecks
          rw [if_neg (by omega), if_neg (by omega),
            if_neg (fun hn => hn h3), if_pos h4])
  · exact ResamplerGradOpCompute_ok ds ws gos data warp go gd0 gw0
      (by unfold resamplerGradOpShapeChecks
          rw [if_neg (by omega), if_neg (by omega),
            if_neg (fun hn => hn h3), if_neg (fun hn => hn h4)])

/-- Counterexample to C7 as stated: a rank-1 warp makes the forward op fail
with `invalid-argument`, not the `unimplemented` the claim assigns to rank
violations; and the backward op accepts a batch-size mismatch (data batch 2,
warp batch 3) outright, although the claim says every such input is
rejected. -/
theorem C7_counterexample :
    ResamplerOpCompute .KeysCubicKernel [1, 1, 1, 1] [1] (fun _ => 0)
        (fun _ => 0) (fun _ => 0) = .error .invalidArgument ∧
    OpError.invalidArgument ≠ OpError.unimplemented ∧
    (ResamplerGradOpCompute [2, 1, 1, 1] [3, 2] [3, 1] (fun _ => 0)
        (fun _ => 0) (fun _ => 0) (fun _ => 0) (fun _ => 0)).isOk = true ∧
    (2 : ℕ) ≠ 3 :=
  ⟨rfl, by decide, rfl, by decide⟩

/-- Witness for C7 at a rank-3 data shape. -/
theorem C7_shape_validation_witness :
    ResamplerOpCompute .KeysCubicKernel [1, 2, 3] [2, 2] (fun _ => 0)
        (fun _ => 0) (fun _ => 0) = .error .unimplemented ∧
    ResamplerGradOpCompute [1, 2, 3] [2, 2] [2, 3] (fun _ => 0) (fun _ => 0)
        (fun _ => 0) (fun _ => 0) (fun _ => 0) = .error .unimplemented :=
  (C7_shape_validation .KeysCubicKernel [1, 2, 3] [2, 2] [2, 3] (fun _ => 0)
      (fun _ => 0) (fun _ => 0) (fun _ => 0) (fun _ => 0) (fun _ => 0)).1
    (by decide)

/-- C9: a degenerate call — image or warp with zero elements — that passes
the shape checks succeeds on both ops: the forward output keeps its allocated
shape (warp shape with trailing dimension `data_channels`) and contents, the
backward gradients keep the data and warp shapes and their allocated
contents, and no per-element work is dispatched. -/
theorem C9_degenerate_no_op (kt : SamplingKernelType) (ds ws gos : List ℕ)
    (data warp go out gd0 gw0 : ℕ → ℚ)
    (hf : resamplerOpShapeChecks ds ws = none)
    (hg : resamplerGradOpShapeChecks ds ws gos = none)
    (hz : numElements ds = 0 ∨ numElements ws = 0) :
    ResamplerOpCompute kt ds ws data warp out =
      .ok (setLastDim ws (ds.getD 3 0), out) ∧
    ResamplerGradOpCompute ds ws gos data warp go gd0 gw0 =
      .ok ((ds, gd0), (ws, gw0)) := by
  have hguard : ¬ (0 < numElements ds ∧ 0 < numElements ws) := by
    rcases hz with h | h <;> simp [h]
  constructor
  · unfold ResamplerOpCompute
    rw [hf]
    dsimp only
    rw [if_neg hguard]
  · unfold ResamplerGradOpCompute
    rw [hg]
    dsimp only
    rw [if_neg hguard]

/-- Witness for C9 at batch size 0. -/
theorem C9_degenerate_no_op_witness :
    ResamplerOpCompute .KeysCubicKernel [0, 2, 2, 1] [0, 3, 2] (fun _ => 0)
        (fun _ => 0) (fun _ => 7) =
      .ok (setLastDim [0, 3, 2] (List.getD [0, 2, 2, 1] 3 0), fun _ => 7) ∧
    ResamplerGradOpCompute [0, 2, 2, 1] [0, 3, 2] [0, 3, 1] (fun _ => 0)
        (fun _ => 0) (fun _ => 0) (fun _ => 5) (fun _ => 6) =
      .ok (([0, 2, 2, 1], fun _ => 5), ([0, 3, 2], fun _ => 6)) :=
  C9_degenerate_no_op .KeysCubicKernel [0, 2, 2, 1] [0, 3, 2] [0, 3, 1]
    (fun _ => 0) (fun _ => 0) (fun _ => 0) (fun _ => 7) (fun _ => 5)
    (fun _ => 6) (by decide) (by decide) (by decide)

/-- Counterexample to C5 as stated: with image shape `[1,0,0,1]` (width =
height = 0) and the single warp coordinate `(-1, -1)`, the coordinate
satisfies neither `x ≥ width` nor `y ≥ height`; and the forward pass writes
nothing at all — the freshly allocated output buffer (here filled with `7`)
is returned untouched, so the output elements are not zero. -/
theorem C5_counterexample :
    ¬ ((-1 : ℚ) ≥ ((List.getD [1, 0, 0, 1] 2 0 : ℕ) : ℚ) ∨
        (-1 : ℚ) ≥ ((List.getD [1, 0, 0, 1] 1 0 : ℕ) : ℚ)) ∧
    ResamplerOpCompute .KeysCubicKernel [1, 0, 0, 1] [1, 1, 2] (fun _ => 0)
        (fun _ => -1) (fun _ => 7) = .ok ([1, 1, 1], fun _ => 7) ∧
    (7 : ℚ) ≠ 0 :=
  ⟨by decide, rfl, by decide⟩

/-- C5 (amended): when a spatial dimension of the image is zero (and the
shape checks pass), the data tensor has zero elements, so the forward compute
skips the resampling functor entirely and returns the allocated output buffer
unmodified rather than writing zeros; independently, had the functor run,
every sample's output would be zero, because with a zero spatial dimension no
pixel is ever in range. -/
theorem C5_zero_spatial_dim (kt : SamplingKernelType) (ds ws : List ℕ)
    (data warp out : ℕ → ℚ)
    (hc : resamplerOpShapeChecks ds ws = none)
    (hz : ds.getD 1 0 = 0 ∨ ds.getD 2 0 = 0) :
    ResamplerOpCompute kt ds ws data warp out =
      .ok (setLastDim ws (ds.getD 3 0), out) ∧
    ∀ (a : ResampleArgs) (kernel : SamplingKernel) (b s chan : ℕ),
      a.data_height = 0 ∨ a.data_width = 0 →
      sample_output a kernel b s chan = 0 := by
  constructor
  · have hlen : ds.length = 4 := (resamplerOpShapeChecks_none ds ws hc).1
    have hne : numElements ds = 0 := by
      rcases ds with _ | ⟨d0, _ | ⟨d1, _ | ⟨d2, _ | ⟨d3, tl⟩⟩⟩⟩ <;>
        simp_all [numElements]
      rcases hz with h | h <;> simp_all
    unfold ResamplerOpCompute
    rw [hc]
    dsimp only
    rw [if_neg (by simp [hne])]
  · intro a kernel b s chan hzero
    simp only [sample_output]
    split
    · rw [resampleChannelLoop_eq_sum]
      refine Finset.sum_eq_zero fun inx _ => Finset.sum_eq_zero fun iny _ => ?_
      simp only [ResampleArgs.get_data_point]
      rw [if_neg (by rcases hzero with h | h <;> omega)]
      ring
    · rfl

/-- Witness for C5 at image shape `[1,0,0,1]`. -/
theorem C5_zero_spatial_dim_witness :
    ResamplerOpCompute .KeysCubicKernel [1, 0, 0, 1] [1, 1, 2] (fun _ => 0)
        (fun _ => -1) (fun _ => 7) =
      .ok (setLastDim [1, 1, 2] (List.getD [1, 0, 0, 1] 3 0), fun _ => 7) :=
  (C5_zero_spatial_dim .KeysCubicKernel [1, 0, 0, 1] [1, 1, 2] (fun _ => 0)
      (fun _ => -1) (fun _ => 7) (by decide) (by decide)).1

/-- Witness for C6 at the unrecognized name "bogus". -/
theorem C6_construction_iff_recognized_witness :
    ResamplerOpConstruct "bogus" = .error .invalidArgument :=
  (C6_construction_iff_recognized "bogus").2 (by decide)
